import Mathlib

/-!
Verification of the Audio Playback Coordination Engine of this repository.

The definitions below are a shallow embedding of
`src/app/processes/audio-playback/model/audio-playback.service.ts`
(the Audio Session Controller) and
`src/app/entities/track/components/track-player/track-player.component.ts`
(the Player View Coordinator), together with the small pieces of
`src/app/shared` they use (`Result`, `isDefined`, the error constructors and
`ErrorHandlingService.getUserFriendlyMessage`).

Modelling conventions:
* JavaScript numbers are modelled by `JSNum`: a rational together with the
  three non-finite values `nan`, `posInf`, `negInf`; comparisons follow IEEE
  semantics (every comparison involving NaN is false).
* The `HTMLAudioElement` owned by the service is modelled by `Handle`; its
  `src` field holds the string last assigned by the service (the empty string
  for a freshly constructed element).
* Every service method returns, besides the successor service state, the list
  of externally visible actions (`Act`) it performs, in program order: calls
  into the platform handle, `BehaviorSubject` publications, error-handler log
  calls and `localStorage` writes.  `localStorage` round-trips numbers through
  decimal strings, which is the identity on the stored value, so the store is
  modelled as holding the parsed number directly.
* The asynchronous `play()` method is split at its single `await`:
  `playBegin` is the synchronous part up to `audioElement.play()`, and the
  settlement of the returned promise is delivered later as an event
  (`evPlayResolved` / `evPlayRejected`), gated on a pending-promise counter.
-/

/-- A JavaScript number: a rational value or one of NaN, +Infinity,
-Infinity. -/
inductive JSNum where
  | nan
  | posInf
  | negInf
  | num (q : ℚ)
deriving DecidableEq, Repr

namespace JSNum

/-- JavaScript `isNaN` on an already-numeric value. -/
def isNaN : JSNum → Bool
  | nan => true
  | _ => false

/-- IEEE strict less-than: false whenever either side is NaN. -/
def lt : JSNum → JSNum → Bool
  | nan, _ => false
  | _, nan => false
  | negInf, negInf => false
  | negInf, _ => true
  | _, negInf => false
  | posInf, _ => false
  | num _, posInf => true
  | num a, num b => decide (a < b)

/-- IEEE greater-than, defined by flipping `lt`. -/
def gt (a b : JSNum) : Bool := lt b a

/-- IEEE less-or-equal: false whenever either side is NaN. -/
def le (a b : JSNum) : Bool := !a.isNaN && !b.isNaN && (lt a b || a == b)

/-- JavaScript `Math.max` of two numbers: NaN if either argument is NaN,
otherwise the larger argument. -/
def max (a b : JSNum) : JSNum :=
  if a.isNaN || b.isNaN then nan
  else if lt a b then b else a

/-- Exact division of rationals, written through `Rat.divInt` so that it
reduces inside the kernel (`Rat.inv` does not); `ratDiv_eq_div` below shows
it agrees with field division away from zero. -/
def ratDiv (a b : ℚ) : ℚ :=
  Rat.divInt (a.num * (b.den : ℤ)) ((a.den : ℤ) * b.num)

/-- JavaScript division (signed zeros collapsed to `num 0`). -/
def div : JSNum → JSNum → JSNum
  | nan, _ => nan
  | _, nan => nan
  | posInf, posInf => nan
  | posInf, negInf => nan
  | negInf, posInf => nan
  | negInf, negInf => nan
  | posInf, num b => if b < 0 then negInf else posInf
  | negInf, num b => if b < 0 then posInf else negInf
  | num _, posInf => num 0
  | num _, negInf => num 0
  | num a, num b =>
      if b = 0 then (if a = 0 then nan else if a > 0 then posInf else negInf)
      else num (ratDiv a b)

end JSNum

/-- `AudioErrorCode` from `audio-playback.service.ts`. -/
inductive AudioErrorCode where
  | mediaErrAborted
  | mediaErrNetwork
  | mediaErrDecode
  | mediaErrSrcNotSupported
  | audioNotAvailable
  | invalidTrack
  | playbackFailed
deriving DecidableEq, Repr

/-- A `ValidationError` from `shared/lib/result.ts`: code VALIDATION_ERROR
with a message and per-field error lists (`[]` models an absent `fields`
object; the audio service always supplies fields). -/
structure ValidationErr where
  message : String
  fields : List (String × List String)
deriving DecidableEq, Repr

/-- The `DomainError` union from `shared/lib/result.ts`, restricted to the
variants the audio engine produces: `ValidationError` and `UnknownError`
(the latter carrying the optional `AudioErrorCode` stored in its details). -/
inductive DomainError where
  | validation (e : ValidationErr)
  | unknown (message : String) (code : Option AudioErrorCode)
deriving DecidableEq, Repr

/-- `createValidationError` from `shared/lib/result.ts`. -/
def createValidationError (message : String)
    (fields : List (String × List String)) : ValidationErr :=
  { message := message, fields := fields }

/-- `ErrorHandlingService.formatValidationError`: with fields present the
user-facing text is "Validation error: field: e1, e2; field2: ...". -/
def formatValidationError (e : ValidationErr) : String :=
  match e.fields with
  | [] => e.message
  | fs =>
      "Validation error: " ++
        String.intercalate "; "
          (fs.map fun p => p.1 ++ ": " ++ String.intercalate ", " p.2)

/-- `ErrorHandlingService.getUserFriendlyMessage`: validation errors are
formatted from their fields; every `UnknownError` maps to the generic
fallback text. -/
def getUserFriendlyMessage : DomainError → String
  | .validation e => formatValidationError e
  | .unknown _ _ => "An unexpected error occurred. Please try again later."

/-- The `Track` entity, projected onto the two fields the playback engine
reads (`TrackSchema` also carries title, artist, album, genres, slug, cover
image and timestamps, none of which the engine touches). -/
structure Track where
  id : String
  audioFile : Option String
deriving DecidableEq, Repr

/-- The published `AudioState` snapshot. -/
structure AudioState where
  track : Option Track
  isPlaying : Bool
  currentTime : JSNum
  duration : JSNum
  volume : JSNum
  error : Option String
deriving DecidableEq, Repr

/-- The platform audio handle (`HTMLAudioElement`) as the service observes
and mutates it.  `src` is the string last assigned by the service;
`cptArmed` records whether the one-shot `oncanplaythrough` property handler
installed by `playTrack` is still armed. -/
structure Handle where
  hid : Nat
  src : String
  readyState : Nat
  volume : JSNum
  paused : Bool
  cptArmed : Bool
deriving DecidableEq, Repr

/-- Externally visible actions of the service, in program order. -/
inductive Act where
  | hPause (hid : Nat)
  | hSetSrc (hid : Nat) (url : String)
  | hLoad (hid : Nat)
  | hAlloc (hid : Nat)
  | hWire (hid : Nat)
  | hSetVolume (hid : Nat) (v : JSNum)
  | hSetCurrentTime (hid : Nat) (t : JSNum)
  | hArmCanPlayThrough (hid : Nat)
  | hPlayCall (hid : Nat)
  | publish (st : AudioState)
  | logged (e : DomainError)
  | storageSet (key : String) (v : JSNum)
deriving DecidableEq, Repr

/-- The handle a given action operates on, if any. -/
def Act.hidOf : Act → Option Nat
  | .hPause h => some h
  | .hSetSrc h _ => some h
  | .hLoad h => some h
  | .hAlloc h => some h
  | .hWire h => some h
  | .hSetVolume h _ => some h
  | .hSetCurrentTime h _ => some h
  | .hArmCanPlayThrough h => some h
  | .hPlayCall h => some h
  | .publish _ => none
  | .logged _ => none
  | .storageSet _ _ => none

/-- The mutable state of `AudioPlaybackService`: the owned element, the
`isPlaybackInProgress` flag, the number of unsettled `play()` promises, the
`BehaviorSubject` snapshot, a fresh-id supply for new elements, and the
`localStorage` slot keyed "audioVolume" (holding the parsed number; `nan`
models an unparseable stored string). -/
structure Svc where
  audioElement : Option Handle
  isPlaybackInProgress : Bool
  pendingPlays : Nat
  state : AudioState
  nextId : Nat
  storage : Option JSNum
deriving DecidableEq, Repr

instance {ε α : Type} [DecidableEq ε] [DecidableEq α] :
    DecidableEq (Except ε α) := fun a b =>
  match a, b with
  | .ok x, .ok y =>
      if h : x = y then .isTrue (by rw [h]) else .isFalse (by simp [h])
  | .error x, .error y =>
      if h : x = y then .isTrue (by rw [h]) else .isFalse (by simp [h])
  | .ok _, .error _ => .isFalse (by simp)
  | .error _, .ok _ => .isFalse (by simp)

/-- Result of a public operation: successor state, performed actions, and
the returned `Result` value. -/
structure OpResult where
  svc : Svc
  acts : List Act
  res : Except DomainError Unit
deriving DecidableEq, Repr

/-! ### Audio Session Controller (`AudioPlaybackService`) -/

/-- JavaScript `String.prototype.trim`: strip leading and trailing
whitespace.  Defined on the underlying character list so that it reduces
inside the kernel (the library `String.trim` does not). -/
def jsTrim (s : String) : String :=
  String.mk
    (((s.data.dropWhile Char.isWhitespace).reverse.dropWhile
        Char.isWhitespace).reverse)

/-- `AudioPlaybackService.validateTrack`.  The TypeScript parameter is
nullable at runtime, hence the `Option`; `isDefined` on the `id : string`
field is the non-null check subsumed by the type. -/
def validateTrack (track : Option Track) : Except ValidationErr Track :=
  match track with
  | none =>
      .error (createValidationError "Track is required"
        [("track", ["Track cannot be null or undefined"])])
  | some t =>
      if jsTrim t.id = "" then
        .error (createValidationError "Track ID is required"
          [("id", ["Track ID cannot be empty"])])
      else
        match t.audioFile with
        | none =>
            .error (createValidationError "Audio file is required for playback"
              [("audioFile", ["Track must have an audio file to play"])])
        | some af =>
            if jsTrim af = "" then
              .error (createValidationError "Audio file is required for playback"
                [("audioFile", ["Track must have an audio file to play"])])
            else .ok t

/-- `AudioPlaybackService.validateVolume`. -/
def validateVolume (volume : JSNum) : Except ValidationErr JSNum :=
  if volume.isNaN then
    .error (createValidationError "Volume must be a valid number"
      [("volume", ["Volume is required and must be numeric"])])
  else if JSNum.lt volume (JSNum.num 0) || JSNum.gt volume (JSNum.num 1) then
    .error (createValidationError "Volume must be between 0 and 1"
      [("volume", ["Volume must be in range 0-1"])])
  else .ok volume

/-- `AudioPlaybackService.validateSeekTime`.  The source guards the upper
bound with `isDefined(duration) && time > duration`; `duration` is a plain
number read from the state snapshot, so `isDefined` is always true and the
guard reduces to `time > duration`. -/
def validateSeekTime (time duration : JSNum) : Except ValidationErr JSNum :=
  if time.isNaN then
    .error (createValidationError "Seek time must be a valid number"
      [("time", ["Time is required and must be numeric"])])
  else if JSNum.lt time (JSNum.num 0) then
    .error (createValidationError "Seek time cannot be negative"
      [("time", ["Time must be >= 0"])])
  else if JSNum.gt time duration then
    .error (createValidationError "Seek time cannot exceed track duration"
      [("time", ["Time cannot exceed duration"])])
  else .ok time

/-- Modelled from the spec: `environment.apiUrl`, the configured
file-serving base consumed by `ApiConfigService`.  The environment files are
deployment configuration not present under `src/`; no claim depends on the
concrete value. -/
def environmentApiUrl : String := "http://localhost:8000/api"

/-- `ApiConfigService.getUrl`. -/
def apiConfigGetUrl (endpoint : String) : String :=
  environmentApiUrl ++ "/" ++ endpoint

/-- `AudioPlaybackService.getFullAudioUrl`. -/
def getFullAudioUrl (audioFilePath : String) : Except DomainError String :=
  if jsTrim audioFilePath = "" then
    .error (.unknown "Audio file path is empty" (some .invalidTrack))
  else if audioFilePath.startsWith "http://"
      || audioFilePath.startsWith "https://" then
    .ok audioFilePath
  else .ok (apiConfigGetUrl ("files/" ++ audioFilePath))

/-- `AudioPlaybackService.cleanupAudioElement`: pause, clear the source and
reload (releasing the buffers, readyState back to HAVE_NOTHING).  Always
returns `Ok` in the source. -/
def cleanupAudioElement (s : Svc) : Svc × List Act :=
  match s.audioElement with
  | none => (s, [])
  | some h =>
      ({ s with
          audioElement := some { h with
            paused := true,
            src := "",
            readyState := 0 } },
        [Act.hPause h.hid, Act.hSetSrc h.hid "", Act.hLoad h.hid])

/-- `AudioPlaybackService.initAudio`: clean up any prior element, allocate a
fresh `Audio()` element, wire the seven `addEventListener` handlers, then
restore the persisted volume when `localStorage` holds a parseable number. -/
def initAudio (s : Svc) : Svc × List Act :=
  let p1 : Svc × List Act :=
    match s.audioElement with
    | some _ => cleanupAudioElement s
    | none => (s, [])
  let h : Handle :=
    { hid := p1.1.nextId,
      src := "",
      readyState := 0,
      volume := JSNum.num 1,
      paused := true,
      cptArmed := false }
  let s2 : Svc := { p1.1 with
    audioElement := some h,
    nextId := p1.1.nextId + 1 }
  let a2 : List Act := p1.2 ++ [Act.hAlloc h.hid, Act.hWire h.hid]
  match s2.storage with
  | none => (s2, a2)
  | some v =>
      if v.isNaN then (s2, a2)
      else
        let st := { s2.state with volume := v }
        ({ s2 with
            audioElement := some { h with volume := v },
            state := st },
          a2 ++ [Act.hSetVolume h.hid v, Act.publish st])

/-- `AudioPlaybackService.stop`: pause, clear and reload the element, then
publish `{isPlaying:false, currentTime:0, track:null, error:null}`.  `Ok`
immediately when no element exists. -/
def stop (s : Svc) : Svc × List Act :=
  match s.audioElement with
  | none => (s, [])
  | some h =>
      let st := { s.state with
        isPlaying := false,
        currentTime := JSNum.num 0,
        track := none,
        error := none }
      ({ s with
          audioElement := some { h with
            paused := true,
            src := "",
            readyState := 0 },
          state := st },
        [Act.hPause h.hid, Act.hSetSrc h.hid "", Act.hLoad h.hid,
         Act.publish st])

/-- The synchronous prefix of `AudioPlaybackService.play`, up to and
including the call of the platform play primitive: guard on a missing
element, guard on an empty source, publish `{error:null}` and start one
platform `play()` whose settlement arrives later as an event. -/
def playBegin (s : Svc) : Svc × List Act :=
  match s.audioElement with
  | none =>
      let e : DomainError := .unknown "Audio element not available"
        (some .audioNotAvailable)
      let st := { s.state with
        error := some (getUserFriendlyMessage e),
        isPlaying := false }
      ({ s with state := st }, [Act.logged e, Act.publish st])
  | some h =>
      if h.src = "" then
        let e : DomainError := .unknown "No audio source set"
          (some .playbackFailed)
        let st := { s.state with
          error := some (getUserFriendlyMessage e),
          isPlaying := false }
        ({ s with state := st }, [Act.logged e, Act.publish st])
      else
        let st := { s.state with error := none }
        ({ s with
            state := st,
            pendingPlays := s.pendingPlays + 1 },
          [Act.publish st, Act.hPlayCall h.hid])

/-- The resolution continuation of `AudioPlaybackService.play`: publish
`{isPlaying:true}` and clear `isPlaybackInProgress`.  A no-op when no play
promise is outstanding. -/
def playResolved (s : Svc) : Svc × List Act :=
  if s.pendingPlays = 0 then (s, [])
  else
    let st := { s.state with isPlaying := true }
    ({ s with
        state := st,
        isPlaybackInProgress := false,
        pendingPlays := s.pendingPlays - 1 },
      [Act.publish st])

/-- The rejection continuation of `AudioPlaybackService.play`: classify as
PLAYBACK_FAILED, publish `{isPlaying:false, error}` and clear the
in-progress flag.  A no-op when no play promise is outstanding. -/
def playRejected (s : Svc) (msg : String) : Svc × List Act :=
  if s.pendingPlays = 0 then (s, [])
  else
    let e : DomainError := .unknown msg (some .playbackFailed)
    let st := { s.state with
      isPlaying := false,
      error := some (getUserFriendlyMessage e) }
    ({ s with
        state := st,
        isPlaybackInProgress := false,
        pendingPlays := s.pendingPlays - 1 },
      [Act.logged e, Act.publish st])

/-- `AudioPlaybackService.playTrack`: validate, set the in-progress flag,
stop any prior session, re-initialize a fresh element, publish the new
track's zeroed snapshot, resolve the audio URL, and start loading with the
one-shot `oncanplaythrough` trigger armed.  (The 5-second watchdog armed
here is delivered later as the `evWatchdog` event.) -/
def playTrack (s : Svc) (track : Option Track) : OpResult :=
  match validateTrack track with
  | .error ve =>
      let e : DomainError := .validation ve
      let st := { s.state with
        error := some (getUserFriendlyMessage e),
        isPlaying := false }
      { svc := { s with state := st },
        acts := [Act.logged e, Act.publish st],
        res := .error e }
  | .ok vt =>
      let s0 : Svc := { s with isPlaybackInProgress := true }
      let p1 := stop s0
      let p2 := initAudio p1.1
      let st3 := { p2.1.state with
        track := track,
        isPlaying := false,
        currentTime := JSNum.num 0,
        duration := JSNum.num 0,
        error := none }
      let s3 : Svc := { p2.1 with state := st3 }
      let a3 := p1.2 ++ p2.2 ++ [Act.publish st3]
      match getFullAudioUrl (vt.audioFile.getD "") with
      | .ok url =>
          match s3.audioElement with
          | some h =>
              let st4 := { s3.state with error := none }
              { svc := { s3 with
                  audioElement := some { h with
                    src := url,
                    readyState := 0,
                    cptArmed := true },
                  state := st4 },
                acts := a3 ++ [Act.publish st4, Act.hSetSrc h.hid url,
                  Act.hLoad h.hid, Act.hArmCanPlayThrough h.hid],
                res := .ok () }
          | none =>
              { svc := s3, acts := a3, res := .ok () }
      | .error e0 =>
          let st4 := { s3.state with
            error := some (getUserFriendlyMessage e0),
            isPlaying := false }
          { svc := { s3 with
              state := st4,
              isPlaybackInProgress := false },
            acts := a3 ++ [Act.logged e0, Act.publish st4],
            res := .error e0 }

/-- `AudioPlaybackService.pause`. -/
def pause (s : Svc) : OpResult :=
  match s.audioElement with
  | none =>
      let e : DomainError := .unknown "Audio element not available"
        (some .audioNotAvailable)
      { svc := s, acts := [Act.logged e], res := .error e }
  | some h =>
      let st := { s.state with isPlaying := false }
      { svc := { s with
          audioElement := some { h with paused := true },
          state := st },
        acts := [Act.hPause h.hid, Act.publish st],
        res := .ok () }

/-- `AudioPlaybackService.seek`. -/
def seek (s : Svc) (time : JSNum) : OpResult :=
  match s.audioElement with
  | none =>
      let e : DomainError := .unknown "Audio element not available"
        (some .audioNotAvailable)
      { svc := s, acts := [Act.logged e], res := .error e }
  | some h =>
      match validateSeekTime time s.state.duration with
      | .ok vt =>
          let st := { s.state with currentTime := vt }
          { svc := { s with state := st },
            acts := [Act.hSetCurrentTime h.hid vt, Act.publish st],
            res := .ok () }
      | .error ve =>
          let e : DomainError := .validation ve
          let st := { s.state with error := some (getUserFriendlyMessage e) }
          { svc := { s with state := st },
            acts := [Act.logged e, Act.publish st],
            res := .error e }

/-- `AudioPlaybackService.setVolume`: validate, apply to the element,
persist under the "audioVolume" key, publish. -/
def setVolume (s : Svc) (volume : JSNum) : OpResult :=
  match s.audioElement with
  | none =>
      let e : DomainError := .unknown "Audio element not available"
        (some .audioNotAvailable)
      { svc := s, acts := [Act.logged e], res := .error e }
  | some h =>
      match validateVolume volume with
      | .ok vv =>
          let st := { s.state with volume := vv }
          { svc := { s with
              audioElement := some { h with volume := vv },
              storage := some vv,
              state := st },
            acts := [Act.hSetVolume h.hid vv,
              Act.storageSet "audioVolume" vv, Act.publish st],
            res := .ok () }
      | .error ve =>
          let e : DomainError := .validation ve
          let st := { s.state with error := some (getUserFriendlyMessage e) }
          { svc := { s with state := st },
            acts := [Act.logged e, Act.publish st],
            res := .error e }

/-- `AudioPlaybackService.togglePlayPause`. -/
def togglePlayPause (s : Svc) : OpResult :=
  match s.audioElement with
  | none =>
      let e : DomainError := .unknown "Audio element not available"
        (some .audioNotAvailable)
      { svc := s, acts := [Act.logged e], res := .error e }
  | some h =>
      match s.state.track with
      | none =>
          let e : DomainError := .unknown "No track selected"
            (some .invalidTrack)
          { svc := s, acts := [Act.logged e], res := .error e }
      | some _ =>
          if h.readyState = 0 then
            let e : DomainError := .unknown "Audio source is not loaded properly"
              (some .playbackFailed)
            let st := { s.state with
              error := some (getUserFriendlyMessage e),
              isPlaying := false }
            { svc := { s with state := st },
              acts := [Act.logged e, Act.publish st],
              res := .error e }
          else if s.state.isPlaying then pause s
          else
            let p := playBegin s
            { svc := p.1, acts := p.2, res := .ok () }

/-- `AudioPlaybackService.reset`: clear the in-progress flag, release the
element, re-initialize a fresh one, publish the all-clear snapshot. -/
def reset (s : Svc) : OpResult :=
  let s0 : Svc := { s with isPlaybackInProgress := false }
  let p1 := cleanupAudioElement s0
  let p2 := initAudio p1.1
  let st := { p2.1.state with
    track := none,
    isPlaying := false,
    currentTime := JSNum.num 0,
    duration := JSNum.num 0,
    error := none }
  { svc := { p2.1 with state := st },
    acts := p1.2 ++ p2.2 ++ [Act.publish st],
    res := .ok () }

/-- `AudioPlaybackService.handleTimeUpdate`, for a `timeupdate` event with
the element reporting position `t`. -/
def handleTimeUpdate (s : Svc) (t : JSNum) : Svc × List Act :=
  match s.audioElement with
  | none => (s, [])
  | some _ =>
      let st := { s.state with currentTime := t }
      ({ s with state := st }, [Act.publish st])

/-- `AudioPlaybackService.handleEnded`. -/
def handleEnded (s : Svc) : Svc × List Act :=
  let st := { s.state with
    isPlaying := false,
    currentTime := JSNum.num 0 }
  ({ s with state := st }, [Act.publish st])

/-- `AudioPlaybackService.handleLoaded`, for a `loadedmetadata` event with
the element reporting duration `d`. -/
def handleLoaded (s : Svc) (d : JSNum) : Svc × List Act :=
  match s.audioElement with
  | none => (s, [])
  | some _ =>
      let st := { s.state with duration := d }
      ({ s with state := st }, [Act.publish st])

/-- The four standard `MediaError` categories (plus unrecognized codes). -/
inductive MediaErrKind where
  | aborted
  | network
  | decode
  | srcNotSupported
  | other (n : Nat)
deriving DecidableEq, Repr

/-- Modelled from the spec: `window.location.href`, the page URL an
`HTMLAudioElement` src resolves to when assigned the empty string; the
service only ever compares it for equality against the element source. -/
def windowLocationHref : String := "http://localhost:4200/"

/-- `AudioPlaybackService.handleError`: events from an element with no
source, a source equal to the page URL, or zero readiness are discarded
before classification; otherwise the media error is mapped to the error
taxonomy, logged, and published with `isPlaying:false`. -/
def handleError (s : Svc) (mediaError : Option MediaErrKind) :
    Svc × List Act :=
  match s.audioElement with
  | none => (s, [])
  | some h =>
      if h.src = "" || h.src = windowLocationHref || h.readyState = 0 then
        (s, [])
      else
        let e : DomainError :=
          match mediaError with
          | some .aborted =>
              .unknown "Playback was aborted by the user" (some .mediaErrAborted)
          | some .network =>
              .unknown "Network error while loading audio" (some .mediaErrNetwork)
          | some .decode =>
              .unknown "Audio decoding error" (some .mediaErrDecode)
          | some .srcNotSupported =>
              .unknown "Audio format not supported"
                (some .mediaErrSrcNotSupported)
          | some (.other n) =>
              .unknown ("Audio error (code " ++ toString n ++ ")") none
          | none =>
              .unknown "Audio error without media error information" none
        let st := { s.state with
          isPlaying := false,
          error := some (getUserFriendlyMessage e) }
        ({ s with state := st }, [Act.logged e, Act.publish st])

/-- `AudioPlaybackService.handleCanPlayThrough`, the listener wired by
`initAudio`: re-enter `play()` when a track is loaded and a load is in
progress. -/
def handleCanPlayThrough (s : Svc) : Svc × List Act :=
  if s.state.track.isSome && s.isPlaybackInProgress then playBegin s
  else (s, [])

/-- A `canplaythrough` event: the wired listener runs first, then the
one-shot `oncanplaythrough` property handler installed by `playTrack`
(which calls `play()` and disarms itself). -/
def canPlayThroughEvent (s : Svc) : Svc × List Act :=
  let p1 := handleCanPlayThrough s
  match p1.1.audioElement with
  | none => p1
  | some h =>
      if h.cptArmed then
        let p2 := playBegin p1.1
        match p2.1.audioElement with
        | some h2 =>
            ({ p2.1 with
                audioElement := some { h2 with cptArmed := false } },
              p1.2 ++ p2.2)
        | none => (p2.1, p1.2 ++ p2.2)
      else p1

/-! ### Event-driven step relation of the controller -/

/-- One externally triggered step: a public operation, the settlement of a
pending `play()` promise, or a handle-originated event. -/
inductive Ev where
  | opPlayTrack (t : Option Track)
  | opPlay
  | evPlayResolved
  | evPlayRejected (msg : String)
  | opPause
  | opStop
  | opSeek (t : JSNum)
  | opSetVolume (v : JSNum)
  | opToggle
  | opReset
  | evTimeUpdate (t : JSNum)
  | evEnded
  | evLoadedMetadata (d : JSNum)
  | evError (m : Option MediaErrKind)
  | evCanPlayThrough
  | evReadyState (n : Nat)
  | evWatchdog
deriving DecidableEq, Repr

/-- Dispatch one event to the corresponding handler, collecting its
actions.  `evReadyState` models the browser advancing
`HTMLMediaElement.readyState`; `evWatchdog` is the 5-second load watchdog
armed by `playTrack` (`if (isPlaybackInProgress) isPlaybackInProgress =
false`). -/
def stepT (s : Svc) (e : Ev) : Svc × List Act :=
  match e with
  | .opPlayTrack t => let r := playTrack s t; (r.svc, r.acts)
  | .opPlay => playBegin s
  | .evPlayResolved => playResolved s
  | .evPlayRejected m => playRejected s m
  | .opPause => let r := pause s; (r.svc, r.acts)
  | .opStop => stop s
  | .opSeek t => let r := seek s t; (r.svc, r.acts)
  | .opSetVolume v => let r := setVolume s v; (r.svc, r.acts)
  | .opToggle => let r := togglePlayPause s; (r.svc, r.acts)
  | .opReset => let r := reset s; (r.svc, r.acts)
  | .evTimeUpdate t => handleTimeUpdate s t
  | .evEnded => handleEnded s
  | .evLoadedMetadata d => handleLoaded s d
  | .evError m => handleError s m
  | .evCanPlayThrough => canPlayThroughEvent s
  | .evReadyState n =>
      match s.audioElement with
      | none => (s, [])
      | some h =>
          ({ s with audioElement := some { h with readyState := n } }, [])
  | .evWatchdog => ({ s with isPlaybackInProgress := false }, [])

/-- The state after one event. -/
def step (s : Svc) (e : Ev) : Svc := (stepT s e).1

/-- The state after a sequence of events. -/
def run (s : Svc) : List Ev → Svc
  | [] => s
  | e :: es => run (step s e) es

/-- The snapshots published by a list of actions, in order. -/
def pubsOf (acts : List Act) : List AudioState :=
  acts.filterMap fun a =>
    match a with
    | .publish st => some st
    | _ => none

/-- All snapshots published along a run, in order. -/
def runPubs (s : Svc) : List Ev → List AudioState
  | [] => []
  | e :: es => pubsOf (stepT s e).2 ++ runPubs (step s e) es

/-- The platform guarantee the source relies on: a pending platform
`play()` promise only resolves while the element still has a source;
once `pause()`/`src = ''` has run (stop, reset, a new `playTrack`), a
pending play can only reject. -/
def okEv (s : Svc) (e : Ev) : Bool :=
  match e with
  | .evPlayResolved =>
      match s.audioElement with
      | some h => !(h.src = "")
      | none => false
  | _ => true

/-- A trace every event of which respects `okEv` at its firing state. -/
def validFrom (s : Svc) : List Ev → Bool
  | [] => true
  | e :: es => okEv s e && validFrom (step s e) es

/-- The `BehaviorSubject`'s initial snapshot. -/
def initialAudioState : AudioState :=
  { track := none, isPlaying := false, currentTime := JSNum.num 0,
    duration := JSNum.num 0, volume := JSNum.num 1, error := none }

/-- The service constructor: field initializers then `initAudio()`, given
the prior content of the `localStorage` volume slot.  Returns the
constructed service and the constructor's actions. -/
def mkService (storage : Option JSNum) : Svc × List Act :=
  initAudio
    { audioElement := none, isPlaybackInProgress := false, pendingPlays := 0,
      state := initialAudioState, nextId := 0, storage := storage }

/-- A freshly constructed service with empty persisted storage. -/
def initialSvc : Svc := (mkService none).1

/-! ### Player View Coordinator (`TrackPlayerComponent`) -/

namespace TrackPlayer

/-- The component state: its own track's id and audio file, its copy of the
published snapshot, the WaveSurfer instance (present or not) and the
lifecycle flags. -/
structure Comp where
  trackId : String
  trackAudioFile : Option String
  audioState : AudioState
  wavesurfer : Bool
  waveformReady : Bool
  dragging : Bool
  initializationInProgress : Bool
  componentDestroyed : Bool
  pendingPlayback : Bool
  lastVolume : JSNum
deriving DecidableEq, Repr

/-- Calls the component makes into the audio service and the waveform
surface, in program order. -/
inductive CompAct where
  | svcStop
  | svcPause
  | svcPlay
  | svcPlayTrack (t : Track)
  | svcToggle
  | svcSeek (t : JSNum)
  | wsPause
  | wsDestroy
  | clearChildren
  | wsSeekTo (p : JSNum)
deriving DecidableEq, Repr

/-- `state.track?.id === this.track.id` for a snapshot. -/
def trackIdMatches (st : AudioState) (tid : String) : Bool :=
  match st.track with
  | some t => t.id == tid
  | none => false

/-- `TrackPlayerComponent.destroyWaveSurfer`: pause and destroy the
WaveSurfer instance when present, then detach every child of the waveform
container.  (The `safeExecute` wrappers only matter when the renderer
throws; the model takes the non-throwing paths.) -/
def destroyWaveSurfer (c : Comp) : Comp × List CompAct :=
  let p1 : Comp × List CompAct :=
    if c.wavesurfer then
      ({ c with wavesurfer := false, waveformReady := false },
        [CompAct.wsPause, CompAct.wsDestroy])
    else (c, [])
  (p1.1, p1.2 ++ [CompAct.clearChildren])

/-- `TrackPlayerComponent.ngOnDestroy`: set the liveness flag, destroy the
waveform session, then stop the audio service if this component's track is
the one currently playing. -/
def ngOnDestroy (c : Comp) : Comp × List CompAct :=
  let c0 : Comp := { c with componentDestroyed := true }
  let p1 := destroyWaveSurfer c0
  if p1.1.audioState.isPlaying && trackIdMatches p1.1.audioState c.trackId then
    (p1.1, p1.2 ++ [CompAct.svcStop])
  else p1

/-- `TrackPlayerComponent.togglePlayPause`: defer to `pendingPlayback`
while the waveform is not ready; otherwise either start this track or
toggle the current one. -/
def togglePlayPause (c : Comp) : Comp × List CompAct :=
  if !c.waveformReady then
    ({ c with pendingPlayback := true }, [])
  else if !(trackIdMatches c.audioState c.trackId) then
    (c, [CompAct.svcPlayTrack { id := c.trackId, audioFile := c.trackAudioFile }])
  else
    (c, [CompAct.svcToggle])

/-- The `ready` handler wired by `TrackPlayerComponent.initWaveSurfer`:
mark the waveform ready, re-align its cursor when a position is already
known, clear the init flag, and act on a pending playback exactly once. -/
def onReady (c : Comp) : Comp × List CompAct :=
  let c1 : Comp := { c with waveformReady := true }
  let a1 : List CompAct :=
    if JSNum.gt c1.audioState.currentTime (JSNum.num 0)
        && JSNum.gt c1.audioState.duration (JSNum.num 0) then
      [CompAct.wsSeekTo
        (JSNum.div c1.audioState.currentTime c1.audioState.duration)]
    else []
  let c2 : Comp := { c1 with initializationInProgress := false }
  if c2.pendingPlayback then
    ({ c2 with pendingPlayback := false }, a1 ++ [CompAct.svcPlay])
  else (c2, a1)

/-- `TrackPlayerComponent.safeSeekWavesurfer`: compute the fraction
`currentTime / max(duration, 0.1)` and apply it only when it already lies
in [0,1]. -/
def safeSeekWavesurfer (c : Comp) (currentTime duration : JSNum) :
    List CompAct × Except String Unit :=
  if !c.wavesurfer then
    ([], .error "WaveSurfer not available")
  else
    let position :=
      JSNum.div currentTime (JSNum.max duration (JSNum.num (mkRat 1 10)))
    if JSNum.le (JSNum.num 0) position && JSNum.le position (JSNum.num 1) then
      ([CompAct.wsSeekTo position], .ok ())
    else ([], .ok ())

/-- The state-store subscription body from `TrackPlayerComponent.ngOnInit`:
adopt matching (or global) snapshots, defer playback that outruns waveform
readiness, and re-align the waveform cursor outside a drag. -/
def onStateNotification (c : Comp) (st : AudioState) : Comp × List CompAct :=
  if c.audioState.track == none || trackIdMatches st c.trackId then
    let c1 : Comp := { c with audioState := st }
    let p2 : Comp × List CompAct :=
      if st.isPlaying && !c1.waveformReady && trackIdMatches st c.trackId then
        ({ c1 with pendingPlayback := true }, [CompAct.svcPause])
      else (c1, [])
    let a3 : List CompAct :=
      if p2.1.wavesurfer && p2.1.waveformReady && !p2.1.dragging then
        if trackIdMatches st c.trackId && JSNum.gt st.duration (JSNum.num 0) then
          (safeSeekWavesurfer p2.1 st.currentTime st.duration).1
        else []
      else []
    (p2.1, p2.2 ++ a3)
  else (c, [])

end TrackPlayer

/-! ### Auxiliary definitions used by the verification -/

/-- The published-snapshot invariant of spec §3: `isPlaying` implies a track
is present. -/
def StateOk (st : AudioState) : Prop :=
  st.isPlaying = true → st.track.isSome = true

/-- The inductive controller invariant: the snapshot satisfies `StateOk`,
and whenever the owned element carries a non-empty source a track is
present in the snapshot. -/
def SvcInv (s : Svc) : Prop :=
  StateOk s.state ∧
  ∀ h, s.audioElement = some h → h.src ≠ "" → s.state.track.isSome = true

/-- A playable sample track. -/
def sampleTrack : Track := { id := "t1", audioFile := some "a.mp3" }

/-- A second sample track with no audio file. -/
def sampleBadTrack : Track := { id := "t2", audioFile := none }

/-- The element a freshly constructed service owns. -/
def sampleHandle0 : Handle :=
  { hid := 0, src := "", readyState := 0, volume := JSNum.num 1,
    paused := true, cptArmed := false }

/-- The element owned by the service after `playTrack sampleTrack`. -/
def sampleHandle1 : Handle :=
  { hid := 1, src := "http://localhost:8000/api/files/a.mp3",
    readyState := 0, volume := JSNum.num 1, paused := true,
    cptArmed := true }

/-- The service after loading `sampleTrack` and a resolved platform
`play()`: a playing session. -/
def sampleSvcPlaying : Svc :=
  run initialSvc [Ev.opPlayTrack (some sampleTrack), Ev.opPlay,
    Ev.evPlayResolved]

/-- A component for `sampleTrack` whose waveform is ready and idle. -/
def sampleComp : TrackPlayer.Comp :=
  { trackId := "t1", trackAudioFile := some "a.mp3",
    audioState := initialAudioState, wavesurfer := true,
    waveformReady := true, dragging := false,
    initializationInProgress := false, componentDestroyed := false,
    pendingPlayback := false, lastVolume := JSNum.num 0 }

/-- The same component while its own track is playing. -/
def sampleCompPlaying : TrackPlayer.Comp :=
  { sampleComp with
    audioState := { initialAudioState with
      track := some sampleTrack,
      isPlaying := true } }

/-- A component still initializing its waveform. -/
def sampleCompInit : TrackPlayer.Comp :=
  { sampleComp with
    waveformReady := false,
    initializationInProgress := true }

/-- `sampleCompInit` after the user toggled play: pending playback set. -/
def sampleCompPending : TrackPlayer.Comp :=
  { sampleComp with pendingPlayback := true }

/-- A snapshot whose position overshoots its duration (fraction 2). -/
def sampleStOvershoot : AudioState :=
  { track := some sampleTrack, isPlaying := false,
    currentTime := JSNum.num 2, duration := JSNum.num 1,
    volume := JSNum.num 1, error := none }

/-- A snapshot halfway through a 2-second track. -/
def sampleStHalf : AudioState :=
  { track := some sampleTrack, isPlaying := false,
    currentTime := JSNum.num 1, duration := JSNum.num 2,
    volume := JSNum.num 1, error := none }

/-! ### General lemmas -/

theorem ratDiv_eq_div (a b : ℚ) (hb : b ≠ 0) : JSNum.ratDiv a b = a / b := by
  have had : ((a.den : ℚ)) ≠ 0 := Nat.cast_ne_zero.mpr (Rat.den_ne_zero a)
  have hbd : ((b.den : ℚ)) ≠ 0 := Nat.cast_ne_zero.mpr (Rat.den_ne_zero b)
  have hbn : ((b.num : ℚ)) ≠ 0 := by
    exact_mod_cast Rat.num_ne_zero.mpr hb
  have ha : ((a.num : ℚ)) = a * ((a.den : ℚ)) :=
    (div_eq_iff had).mp (Rat.num_div_den a)
  have hbe : ((b.num : ℚ)) = b * ((b.den : ℚ)) :=
    (div_eq_iff hbd).mp (Rat.num_div_den b)
  unfold JSNum.ratDiv
  rw [Rat.divInt_eq_div]
  push_cast
  rw [div_eq_div_iff (mul_ne_zero had hbn) hb, ha, hbe]
  ring

/-! ### Claims -/

/-- C5: a handle-originated error event arriving while the element has an
empty source or zero readiness is discarded before classification: the
service state (including the published `error`) is unchanged and nothing is
logged or published. -/
theorem C5_error_suppressed (s : Svc) (h : Handle) (m : Option MediaErrKind)
    (hel : s.audioElement = some h)
    (hcond : h.src = "" ∨ h.readyState = 0) :
    handleError s m = (s, []) := by
  unfold handleError
  rw [hel]
  rcases hcond with hc | hc <;> simp [hc]

/-- Witness for C5 at the freshly constructed service. -/
theorem C5_error_suppressed_witness :
    initialSvc.audioElement = some sampleHandle0 ∧
    (sampleHandle0.src = "" ∨ sampleHandle0.readyState = 0) ∧
    handleError initialSvc (some MediaErrKind.decode) = (initialSvc, []) :=
  ⟨by decide, Or.inl (by decide),
    C5_error_suppressed initialSvc sampleHandle0 (some MediaErrKind.decode)
      (by decide) (Or.inl (by decide))⟩

/-- C10: `stop()` on a loaded session publishes `track := none`,
`isPlaying := false`, `currentTime := 0` but leaves `duration` and `volume`
at their previous values; `reset()` is the operation that zeroes
`duration`. -/
theorem C10_stop_frame (s : Svc) (h : Handle)
    (hel : s.audioElement = some h)
    (hloaded : s.state.track.isSome = true) :
    (stop s).1.state.track = none ∧
    (stop s).1.state.isPlaying = false ∧
    (stop s).1.state.currentTime = JSNum.num 0 ∧
    (stop s).1.state.duration = s.state.duration ∧
    (stop s).1.state.volume = s.state.volume ∧
    (reset s).svc.state.duration = JSNum.num 0 := by
  unfold stop reset
  rw [hel]
  simp

/-- Witness for C10 at a playing session. -/
theorem C10_stop_frame_witness :
    (∃ h, sampleSvcPlaying.audioElement = some h) ∧
    sampleSvcPlaying.state.track.isSome = true ∧
    (stop sampleSvcPlaying).1.state.track = none ∧
    (stop sampleSvcPlaying).1.state.duration
      = sampleSvcPlaying.state.duration ∧
    (reset sampleSvcPlaying).svc.state.duration = JSNum.num 0 := by
  refine ⟨⟨sampleHandle1, by decide⟩, by decide, ?_⟩
  have h10 := C10_stop_frame sampleSvcPlaying sampleHandle1
    (by decide) (by decide)
  exact ⟨h10.1, h10.2.2.2.1, h10.2.2.2.2.2⟩

/-- C3 counterexample: destroying a component whose own track is playing
performs exactly one `stop()` call and does destroy the waveform session,
but the `stop()` call comes AFTER the waveform destruction, not before it
as the claim states: the emitted call sequence is
`[wsPause, wsDestroy, clearChildren, svcStop]`. -/
theorem C3_counterexample :
    (TrackPlayer.ngOnDestroy sampleCompPlaying).2
      = [TrackPlayer.CompAct.wsPause, TrackPlayer.CompAct.wsDestroy,
         TrackPlayer.CompAct.clearChildren, TrackPlayer.CompAct.svcStop] ∧
    ((TrackPlayer.ngOnDestroy sampleCompPlaying).2.count
        TrackPlayer.CompAct.svcStop = 1) ∧
    TrackPlayer.CompAct.wsDestroy ∈ (TrackPlayer.ngOnDestroy sampleCompPlaying).2 ∧
    ¬ ((TrackPlayer.ngOnDestroy sampleCompPlaying).2.indexOf
          TrackPlayer.CompAct.svcStop
        < (TrackPlayer.ngOnDestroy sampleCompPlaying).2.indexOf
          TrackPlayer.CompAct.wsDestroy) := by
  decide

/-- C3 (amended): when a component is destroyed while its own track is
playing, `ngOnDestroy` destroys the waveform session first (pause, destroy,
detach the container children) and then performs exactly one `stop()` call
— destruction strictly precedes the stop, the reverse of the claimed
order. -/
theorem C3_amended (c : TrackPlayer.Comp)
    (hws : c.wavesurfer = true)
    (hplay : c.audioState.isPlaying = true)
    (hmatch : TrackPlayer.trackIdMatches c.audioState c.trackId = true) :
    (TrackPlayer.ngOnDestroy c).2
      = [TrackPlayer.CompAct.wsPause, TrackPlayer.CompAct.wsDestroy,
         TrackPlayer.CompAct.clearChildren, TrackPlayer.CompAct.svcStop] := by
  unfold TrackPlayer.ngOnDestroy TrackPlayer.destroyWaveSurfer
  simp [hws, hplay, hmatch]

/-- Witness for the amended C3. -/
theorem C3_amended_witness :
    sampleCompPlaying.wavesurfer = true ∧
    sampleCompPlaying.audioState.isPlaying = true ∧
    TrackPlayer.trackIdMatches sampleCompPlaying.audioState
      sampleCompPlaying.trackId = true ∧
    (TrackPlayer.ngOnDestroy sampleCompPlaying).2
      = [TrackPlayer.CompAct.wsPause, TrackPlayer.CompAct.wsDestroy,
         TrackPlayer.CompAct.clearChildren, TrackPlayer.CompAct.svcStop] :=
  ⟨by decide, by decide, by decide,
    C3_amended sampleCompPlaying (by decide) (by decide) (by decide)⟩

/-- C6: toggling play/pause while the waveform is not ready only sets the
`pendingPlayback` flag and performs no service call at all; when the
waveform's `ready` handler later runs with the flag set, it clears the flag
and invokes the service `play()` exactly once. -/
theorem C6_pending_playback (c : TrackPlayer.Comp) :
    (c.waveformReady = false →
      (TrackPlayer.togglePlayPause c).2 = [] ∧
      (TrackPlayer.togglePlayPause c).1
        = { c with pendingPlayback := true }) ∧
    (c.pendingPlayback = true →
      (TrackPlayer.onReady c).1.pendingPlayback = false ∧
      (TrackPlayer.onReady c).2.count TrackPlayer.CompAct.svcPlay = 1) := by
  constructor
  · intro hready
    unfold TrackPlayer.togglePlayPause
    simp [hready]
  · intro hpend
    unfold TrackPlayer.onReady
    constructor
    · simp [hpend]
    · simp [hpend, List.count_append]
      split <;> simp

/-- Witness for C6 at an initializing component and at a pending one. -/
theorem C6_pending_playback_witness :
    sampleCompInit.waveformReady = false ∧
    (TrackPlayer.togglePlayPause sampleCompInit).2 = [] ∧
    sampleCompPending.pendingPlayback = true ∧
    (TrackPlayer.onReady sampleCompPending).1.pendingPlayback = false ∧
    (TrackPlayer.onReady sampleCompPending).2.count
      TrackPlayer.CompAct.svcPlay = 1 :=
  ⟨by decide,
    ((C6_pending_playback sampleCompInit).1 (by decide)).1,
    by decide,
    ((C6_pending_playback sampleCompPending).2 (by decide)).1,
    ((C6_pending_playback sampleCompPending).2 (by decide)).2⟩

/-- Every waveform seek emitted by `safeSeekWavesurfer` carries exactly the
fraction `currentTime / max(duration, 0.1)`, and only when that fraction
already lies in [0,1]. -/
theorem wsSeekTo_mem_safeSeek (c : TrackPlayer.Comp) (ct dur p : JSNum)
    (hp : TrackPlayer.CompAct.wsSeekTo p
      ∈ (TrackPlayer.safeSeekWavesurfer c ct dur).1) :
    p = JSNum.div ct (JSNum.max dur (JSNum.num (mkRat 1 10))) ∧
    JSNum.le (JSNum.num 0) p = true ∧
    JSNum.le p (JSNum.num 1) = true := by
  unfold TrackPlayer.safeSeekWavesurfer at hp
  split at hp
  · simp at hp
  · dsimp only at hp
    split at hp
    · next hcond =>
      simp at hp
      subst hp
      simp_all
    · simp at hp

/-- C9 counterexample: with the waveform ready and no drag in progress, a
notification with `currentTime = 2`, `duration = 1` yields the fraction 2;
the claim says it is clamped into [0,1] and applied, but the component
applies nothing at all — the out-of-range position is discarded, so no
`wsSeekTo` (in particular not the clamped `wsSeekTo 1`) is emitted. -/
theorem C9_counterexample :
    sampleComp.dragging = false ∧
    JSNum.div sampleStOvershoot.currentTime
        (JSNum.max sampleStOvershoot.duration (JSNum.num (mkRat 1 10)))
      = JSNum.num 2 ∧
    (TrackPlayer.onStateNotification sampleComp sampleStOvershoot).2 = [] ∧
    ¬ (TrackPlayer.CompAct.wsSeekTo (JSNum.num 1)
        ∈ (TrackPlayer.onStateNotification sampleComp sampleStOvershoot).2) := by
  decide

/-- C9 (amended): outside a drag, every position the coordinator pushes to
the waveform surface equals `currentTime / max(duration, 0.1)` and is
pushed only when it already lies in [0,1]; out-of-range fractions are
discarded rather than clamped. -/
theorem C9_position_guarded (c : TrackPlayer.Comp) (st : AudioState)
    (hdrag : c.dragging = false) :
    ∀ p, TrackPlayer.CompAct.wsSeekTo p
        ∈ (TrackPlayer.onStateNotification c st).2 →
      p = JSNum.div st.currentTime
            (JSNum.max st.duration (JSNum.num (mkRat 1 10))) ∧
      JSNum.le (JSNum.num 0) p = true ∧
      JSNum.le p (JSNum.num 1) = true := by
  intro p hp
  unfold TrackPlayer.onStateNotification at hp
  split at hp
  · simp only [List.mem_append] at hp
    rcases hp with hp | hp
    · split at hp <;> simp at hp
    · repeat' split at hp
      all_goals
        first
          | exact wsSeekTo_mem_safeSeek _ _ _ _ hp
          | simp at hp
  · simp at hp

/-- Witness for the amended C9 at an in-range notification. -/
theorem C9_position_guarded_witness :
    sampleComp.dragging = false ∧
    TrackPlayer.CompAct.wsSeekTo (JSNum.num (mkRat 1 2))
      ∈ (TrackPlayer.onStateNotification sampleComp sampleStHalf).2 ∧
    (JSNum.num (mkRat 1 2)
        = JSNum.div sampleStHalf.currentTime
            (JSNum.max sampleStHalf.duration (JSNum.num (mkRat 1 10))) ∧
      JSNum.le (JSNum.num 0) (JSNum.num (mkRat 1 2)) = true ∧
      JSNum.le (JSNum.num (mkRat 1 2)) (JSNum.num 1) = true) :=
  ⟨by decide, by decide,
    C9_position_guarded sampleComp sampleStHalf (by decide)
      (JSNum.num (mkRat 1 2)) (by decide)⟩

/-- C4 counterexample: on a fresh controller the published `duration` is
still 0 and the claim demands that `seek 1` succeed with `currentTime = 1`;
the service instead rejects it with a `ValidationError` (the upper-bound
guard `time > duration` fires for any positive time while `duration = 0`)
and, additionally, rejection is not state-preserving: it publishes an
`error` message. -/
theorem C4_counterexample :
    initialSvc.state.duration = JSNum.num 0 ∧
    JSNum.le (JSNum.num 0) (JSNum.num 1) = true ∧
    (seek initialSvc (JSNum.num 1)).res
      = Except.error (DomainError.validation (createValidationError
          "Seek time cannot exceed track duration"
          [("time", ["Time cannot exceed duration"])])) ∧
    (seek initialSvc (JSNum.num 1)).svc.state.currentTime = JSNum.num 0 ∧
    (seek initialSvc (JSNum.num 1)).svc.state.error.isSome = true := by
  decide

/-- C4 (amended): `seek(t)` is rejected with a `ValidationError` whenever
`t` is NaN, `t < 0`, or `t` exceeds the published duration — including when
the duration is still 0; on rejection `currentTime` is unchanged but
`state.error` is set.  For every other `t` (so `0 ≤ t ≤ duration`) the seek
succeeds and the published `currentTime` equals `t`. -/
theorem C4_seek_bounds (s : Svc) (h : Handle) (t : JSNum)
    (hel : s.audioElement = some h) :
    ((t.isNaN = true ∨ JSNum.lt t (JSNum.num 0) = true ∨
        JSNum.gt t s.state.duration = true) →
      (∃ ve, (seek s t).res = Except.error (DomainError.validation ve)) ∧
      (seek s t).svc.state.currentTime = s.state.currentTime ∧
      (seek s t).svc.state.error.isSome = true) ∧
    (t.isNaN = false → JSNum.lt t (JSNum.num 0) = false →
      JSNum.gt t s.state.duration = false →
      (seek s t).res = Except.ok () ∧
      (seek s t).svc.state.currentTime = t) := by
  unfold seek validateSeekTime
  rw [hel]
  cases h1 : t.isNaN <;>
    cases h2 : JSNum.lt t (JSNum.num 0) <;>
      cases h3 : JSNum.gt t s.state.duration <;>
        constructor <;> intro hh <;> simp_all

/-- Witness for the amended C4: `seek 2` rejected at duration 0 with
`currentTime` unchanged, and the success side of the conjunction holding
vacuously-checked hypotheses at `t = 0`. -/
theorem C4_seek_bounds_witness :
    initialSvc.audioElement = some sampleHandle0 ∧
    JSNum.gt (JSNum.num 2) initialSvc.state.duration = true ∧
    (∃ ve, (seek initialSvc (JSNum.num 2)).res
      = Except.error (DomainError.validation ve)) ∧
    (seek initialSvc (JSNum.num 2)).svc.state.currentTime
      = initialSvc.state.currentTime ∧
    (seek initialSvc (JSNum.num 0)).res = Except.ok () ∧
    (seek initialSvc (JSNum.num 0)).svc.state.currentTime = JSNum.num 0 := by
  have hrej := (C4_seek_bounds initialSvc sampleHandle0 (JSNum.num 2)
    (by decide)).1 (Or.inr (Or.inr (by decide)))
  have hok := (C4_seek_bounds initialSvc sampleHandle0 (JSNum.num 0)
    (by decide)).2 (by decide) (by decide) (by decide)
  exact ⟨by decide, by decide, hrej.1, hrej.2.1, hok.1, hok.2⟩

/-- C7: `setVolume(v)` is rejected with a `ValidationError` for NaN, `v <
0` or `v > 1` (the two comparisons also reject the infinities, so every
non-finite value is rejected), leaving the published volume and the
persisted slot unchanged; for `v ∈ [0,1]` it succeeds, publishes `v`,
persists it under the "audioVolume" key, and a freshly constructed
controller restores exactly that value into both the handle and the
published snapshot. -/
theorem C7_volume (s : Svc) (h : Handle) (v : JSNum)
    (hel : s.audioElement = some h) :
    ((v.isNaN = true ∨ JSNum.lt v (JSNum.num 0) = true ∨
        JSNum.gt v (JSNum.num 1) = true) →
      (∃ ve, (setVolume s v).res = Except.error (DomainError.validation ve)) ∧
      (setVolume s v).svc.state.volume = s.state.volume ∧
      (setVolume s v).svc.storage = s.storage) ∧
    (∀ q : ℚ, v = JSNum.num q → 0 ≤ q → q ≤ 1 →
      (setVolume s v).res = Except.ok () ∧
      (setVolume s v).svc.state.volume = v ∧
      (setVolume s v).svc.storage = some v ∧
      Act.storageSet "audioVolume" v ∈ (setVolume s v).acts ∧
      (mkService (setVolume s v).svc.storage).1.state.volume = v ∧
      (∀ h2, (mkService (setVolume s v).svc.storage).1.audioElement = some h2 →
        h2.volume = v)) := by
  constructor
  · intro hrej
    cases h1 : v.isNaN
    · have hor : (JSNum.lt v (JSNum.num 0) || JSNum.gt v (JSNum.num 1))
          = true := by
        rcases hrej with hc | hc | hc
        · rw [h1] at hc; cases hc
        · simp [hc]
        · simp [hc]
      simp [setVolume, validateVolume, hel, h1, hor]
    · simp [setVolume, validateVolume, hel, h1]
  · intro q hq hq0 hq1
    subst hq
    have h1 : (JSNum.num q).isNaN = false := rfl
    have h2 : JSNum.lt (JSNum.num q) (JSNum.num 0) = false := by
      simp only [JSNum.lt, decide_eq_false_iff_not]
      exact not_lt.mpr hq0
    have h3 : JSNum.gt (JSNum.num q) (JSNum.num 1) = false := by
      simp only [JSNum.gt, JSNum.lt, decide_eq_false_iff_not]
      exact not_lt.mpr hq1
    refine ⟨?_, ?_, ?_, ?_, ?_, ?_⟩ <;>
      simp [setVolume, validateVolume, mkService, initAudio, hel, h1, h2, h3]

/-- Witness for C7: rejection at `v = 2` and acceptance with round-trip at
`v = 3/4`, both on the fresh controller. -/
theorem C7_volume_witness :
    initialSvc.audioElement = some sampleHandle0 ∧
    JSNum.gt (JSNum.num 2) (JSNum.num 1) = true ∧
    (∃ ve, (setVolume initialSvc (JSNum.num 2)).res
      = Except.error (DomainError.validation ve)) ∧
    (setVolume initialSvc (JSNum.num 2)).svc.storage = initialSvc.storage ∧
    (setVolume initialSvc (JSNum.num (mkRat 3 4))).res = Except.ok () ∧
    (setVolume initialSvc (JSNum.num (mkRat 3 4))).svc.storage
      = some (JSNum.num (mkRat 3 4)) ∧
    (mkService (setVolume initialSvc
        (JSNum.num (mkRat 3 4))).svc.storage).1.state.volume
      = JSNum.num (mkRat 3 4) := by
  have hrej := (C7_volume initialSvc sampleHandle0 (JSNum.num 2)
    (by decide)).1 (Or.inr (Or.inr (by decide)))
  have hok := (C7_volume initialSvc sampleHandle0 (JSNum.num (mkRat 3 4))
    (by decide)).2 (mkRat 3 4) rfl (by norm_num) (by norm_num)
  exact ⟨by decide, by decide, hrej.1, hrej.2.2, hok.1, hok.2.2.1,
    hok.2.2.2.2.1⟩

/-- C8 counterexample: with `sampleTrack` loaded and playing, loading a
track without an audio file is rejected with a `ValidationError` and the
`track` field does remain the previously loaded one — but the published
state is NOT unchanged: the rejection publishes the validation message into
`error` and forces `isPlaying` to false. -/
theorem C8_counterexample :
    sampleSvcPlaying.state.isPlaying = true ∧
    sampleSvcPlaying.state.error = none ∧
    (playTrack sampleSvcPlaying (some sampleBadTrack)).res
      = Except.error (DomainError.validation (createValidationError
          "Audio file is required for playback"
          [("audioFile", ["Track must have an audio file to play"])])) ∧
    (playTrack sampleSvcPlaying (some sampleBadTrack)).svc.state
      ≠ sampleSvcPlaying.state ∧
    (playTrack sampleSvcPlaying (some sampleBadTrack)).svc.state.track
      = some sampleTrack := by
  decide

/-- C8 (amended): `playTrack` on a track whose audio file is absent or
blank is rejected with a `ValidationError`; the `track`, `currentTime`,
`duration` and `volume` fields keep their previous values (the previously
loaded track in particular stays), but the published state does change:
`error` is set to the validation message and `isPlaying` to false. -/
theorem C8_playTrack_invalid (s : Svc) (t : Track)
    (hid : ¬ jsTrim t.id = "")
    (haf : jsTrim (t.audioFile.getD "") = "") :
    (playTrack s (some t)).res
      = Except.error (DomainError.validation (createValidationError
          "Audio file is required for playback"
          [("audioFile", ["Track must have an audio file to play"])])) ∧
    (playTrack s (some t)).svc.state.track = s.state.track ∧
    (playTrack s (some t)).svc.state.currentTime = s.state.currentTime ∧
    (playTrack s (some t)).svc.state.duration = s.state.duration ∧
    (playTrack s (some t)).svc.state.volume = s.state.volume ∧
    (playTrack s (some t)).svc.state.isPlaying = false ∧
    (playTrack s (some t)).svc.state.error
      = some (getUserFriendlyMessage (DomainError.validation
          (createValidationError "Audio file is required for playback"
            [("audioFile", ["Track must have an audio file to play"])]))) := by
  have hval : validateTrack (some t)
      = Except.error (createValidationError
          "Audio file is required for playback"
          [("audioFile", ["Track must have an audio file to play"])]) := by
    unfold validateTrack
    cases haf2 : t.audioFile with
    | none => simp [hid, haf2]
    | some af =>
        have haf3 : jsTrim af = "" := by
          rw [haf2] at haf
          exact haf
        simp [hid, haf2, haf3]
  simp [playTrack, hval]

/-- Witness for the amended C8 on a playing session. -/
theorem C8_playTrack_invalid_witness :
    (¬ jsTrim sampleBadTrack.id = "") ∧
    jsTrim (sampleBadTrack.audioFile.getD "") = "" ∧
    (playTrack sampleSvcPlaying (some sampleBadTrack)).svc.state.track
      = sampleSvcPlaying.state.track ∧
    (playTrack sampleSvcPlaying (some sampleBadTrack)).svc.state.isPlaying
      = false :=
  ⟨by decide, by decide,
    (C8_playTrack_invalid sampleSvcPlaying sampleBadTrack (by decide)
      (by decide)).2.1,
    (C8_playTrack_invalid sampleSvcPlaying sampleBadTrack (by decide)
      (by decide)).2.2.2.2.2.1⟩

/-- C1: loading track B while a prior handle is owned first stops and
releases the prior handle — pauses it, clears its source, reloads it (twice:
once in `stop`, once in `initAudio`'s cleanup), and publishes the stopped
snapshot — and only after that allocates and wires the fresh handle; every
action after the allocation touches only the new handle, the new handle's
id is fresh, and it becomes the controller's (only) owned element. -/
theorem C1_single_session (s : Svc) (hA : Handle) (B : Track)
    (hel : s.audioElement = some hA)
    (hfresh : hA.hid ≠ s.nextId)
    (hok : validateTrack (some B) = Except.ok B) :
    ∃ tail,
      (playTrack s (some B)).acts
        = [Act.hPause hA.hid, Act.hSetSrc hA.hid "", Act.hLoad hA.hid,
           Act.publish { s.state with
             isPlaying := false,
             currentTime := JSNum.num 0,
             track := none,
             error := none },
           Act.hPause hA.hid, Act.hSetSrc hA.hid "", Act.hLoad hA.hid,
           Act.hAlloc s.nextId, Act.hWire s.nextId] ++ tail ∧
      (∀ a ∈ tail, ∀ i, Act.hidOf a = some i → i = s.nextId) ∧
      (∃ h2, (playTrack s (some B)).svc.audioElement = some h2 ∧
        h2.hid = s.nextId ∧ hA.hid ≠ h2.hid) := by
  cases hurl : getFullAudioUrl (B.audioFile.getD "") with
  | ok url =>
      cases hst : s.storage with
      | none =>
          refine ⟨[Act.publish { s.state with
              track := some B,
              isPlaying := false,
              currentTime := JSNum.num 0,
              duration := JSNum.num 0,
              error := none },
            Act.publish { s.state with
              track := some B,
              isPlaying := false,
              currentTime := JSNum.num 0,
              duration := JSNum.num 0,
              error := none },
            Act.hSetSrc s.nextId url, Act.hLoad s.nextId,
            Act.hArmCanPlayThrough s.nextId], ?_, ?_, ?_⟩
          · simp [playTrack, stop, initAudio, cleanupAudioElement, hok, hel,
              hst, hurl]
          · intro a ha i hi
            simp only [List.mem_cons, List.not_mem_nil, or_false] at ha
            rcases ha with rfl | rfl | rfl | rfl | rfl
            · simp [Act.hidOf] at hi
            · simp [Act.hidOf] at hi
            · simp [Act.hidOf] at hi; omega
            · simp [Act.hidOf] at hi; omega
            · simp [Act.hidOf] at hi; omega
          · refine ⟨⟨s.nextId, url, 0, JSNum.num 1, true, true⟩, ?_, rfl, hfresh⟩
            simp [playTrack, stop, initAudio, cleanupAudioElement, hok, hel,
              hst, hurl]
      | some v =>
          cases hnan : v.isNaN with
          | true =>
              refine ⟨[Act.publish { s.state with
                  track := some B,
                  isPlaying := false,
                  currentTime := JSNum.num 0,
                  duration := JSNum.num 0,
                  error := none },
                Act.publish { s.state with
                  track := some B,
                  isPlaying := false,
                  currentTime := JSNum.num 0,
                  duration := JSNum.num 0,
                  error := none },
                Act.hSetSrc s.nextId url, Act.hLoad s.nextId,
                Act.hArmCanPlayThrough s.nextId], ?_, ?_, ?_⟩
              · simp [playTrack, stop, initAudio, cleanupAudioElement, hok,
                  hel, hst, hurl, hnan]
              · intro a ha i hi
                simp only [List.mem_cons, List.not_mem_nil, or_false] at ha
                rcases ha with rfl | rfl | rfl | rfl | rfl
                · simp [Act.hidOf] at hi
                · simp [Act.hidOf] at hi
                · simp [Act.hidOf] at hi; omega
                · simp [Act.hidOf] at hi; omega
                · simp [Act.hidOf] at hi; omega
              · refine ⟨⟨s.nextId, url, 0, JSNum.num 1, true, true⟩, ?_, rfl, hfresh⟩
                simp [playTrack, stop, initAudio, cleanupAudioElement, hok,
                  hel, hst, hurl, hnan]
          | false =>
              refine ⟨[Act.hSetVolume s.nextId v,
                Act.publish { s.state with
                  isPlaying := false,
                  currentTime := JSNum.num 0,
                  track := none,
                  error := none,
                  volume := v },
                Act.publish { s.state with
                  track := some B,
                  isPlaying := false,
                  currentTime := JSNum.num 0,
                  duration := JSNum.num 0,
                  error := none,
                  volume := v },
                Act.publish { s.state with
                  track := some B,
                  isPlaying := false,
                  currentTime := JSNum.num 0,
                  duration := JSNum.num 0,
                  error := none,
                  volume := v },
                Act.hSetSrc s.nextId url, Act.hLoad s.nextId,
                Act.hArmCanPlayThrough s.nextId], ?_, ?_, ?_⟩
              · simp [playTrack, stop, initAudio, cleanupAudioElement, hok,
                  hel, hst, hurl, hnan]
              · intro a ha i hi
                simp only [List.mem_cons, List.not_mem_nil, or_false] at ha
                rcases ha with rfl | rfl | rfl | rfl | rfl | rfl | rfl
                · simp [Act.hidOf] at hi; omega
                · simp [Act.hidOf] at hi
                · simp [Act.hidOf] at hi
                · simp [Act.hidOf] at hi
                · simp [Act.hidOf] at hi; omega
                · simp [Act.hidOf] at hi; omega
                · simp [Act.hidOf] at hi; omega
              · refine ⟨⟨s.nextId, url, 0, v, true, true⟩, ?_, rfl, hfresh⟩
                simp [playTrack, stop, initAudio, cleanupAudioElement, hok,
                  hel, hst, hurl, hnan]
  | error e0 =>
      cases hst : s.storage with
      | none =>
          refine ⟨[Act.publish { s.state with
              track := some B,
              isPlaying := false,
              currentTime := JSNum.num 0,
              duration := JSNum.num 0,
              error := none },
            Act.logged e0,
            Act.publish { s.state with
              track := some B,
              isPlaying := false,
              currentTime := JSNum.num 0,
              duration := JSNum.num 0,
              error := some (getUserFriendlyMessage e0) }], ?_, ?_, ?_⟩
          · simp [playTrack, stop, initAudio, cleanupAudioElement, hok, hel,
              hst, hurl]
          · intro a ha i hi
            simp only [List.mem_cons, List.not_mem_nil, or_false] at ha
            rcases ha with rfl | rfl | rfl
            · simp [Act.hidOf] at hi
            · simp [Act.hidOf] at hi
            · simp [Act.hidOf] at hi
          · refine ⟨⟨s.nextId, "", 0, JSNum.num 1, true, false⟩, ?_, rfl, hfresh⟩
            simp [playTrack, stop, initAudio, cleanupAudioElement, hok, hel,
              hst, hurl]
      | some v =>
          cases hnan : v.isNaN with
          | true =>
              refine ⟨[Act.publish { s.state with
                  track := some B,
                  isPlaying := false,
                  currentTime := JSNum.num 0,
                  duration := JSNum.num 0,
                  error := none },
                Act.logged e0,
                Act.publish { s.state with
                  track := some B,
                  isPlaying := false,
                  currentTime := JSNum.num 0,
                  duration := JSNum.num 0,
                  error := some (getUserFriendlyMessage e0) }], ?_, ?_, ?_⟩
              · simp [playTrack, stop, initAudio, cleanupAudioElement, hok,
                  hel, hst, hurl, hnan]
              · intro a ha i hi
                simp only [List.mem_cons, List.not_mem_nil, or_false] at ha
                rcases ha with rfl | rfl | rfl
                · simp [Act.hidOf] at hi
                · simp [Act.hidOf] at hi
                · simp [Act.hidOf] at hi
              · refine ⟨⟨s.nextId, "", 0, JSNum.num 1, true, false⟩, ?_, rfl, hfresh⟩
                simp [playTrack, stop, initAudio, cleanupAudioElement, hok,
                  hel, hst, hurl, hnan]
          | false =>
              refine ⟨[Act.hSetVolume s.nextId v,
                Act.publish { s.state with
                  isPlaying := false,
                  currentTime := JSNum.num 0,
                  track := none,
                  error := none,
                  volume := v },
                Act.publish { s.state with
                  track := some B,
                  isPlaying := false,
                  currentTime := JSNum.num 0,
                  duration := JSNum.num 0,
                  error := none,
                  volume := v },
                Act.logged e0,
                Act.publish { s.state with
                  track := some B,
                  isPlaying := false,
                  currentTime := JSNum.num 0,
                  duration := JSNum.num 0,
                  error := some (getUserFriendlyMessage e0),
                  volume := v }], ?_, ?_, ?_⟩
              · simp [playTrack, stop, initAudio, cleanupAudioElement, hok,
                  hel, hst, hurl, hnan]
              · intro a ha i hi
                simp only [List.mem_cons, List.not_mem_nil, or_false] at ha
                rcases ha with rfl | rfl | rfl | rfl | rfl
                · simp [Act.hidOf] at hi; omega
                · simp [Act.hidOf] at hi
                · simp [Act.hidOf] at hi
                · simp [Act.hidOf] at hi
                · simp [Act.hidOf] at hi
              · refine ⟨⟨s.nextId, "", 0, v, true, false⟩, ?_, rfl, hfresh⟩
                simp [playTrack, stop, initAudio, cleanupAudioElement, hok,
                  hel, hst, hurl, hnan]

/-- Witness for C1: loading a second track over a playing session. -/
theorem C1_single_session_witness :
    sampleSvcPlaying.audioElement = some sampleHandle1 ∧
    sampleHandle1.hid ≠ sampleSvcPlaying.nextId ∧
    validateTrack (some { id := "t3", audioFile := some "b.mp3" })
      = Except.ok { id := "t3", audioFile := some "b.mp3" } ∧
    ∃ tail,
      (playTrack sampleSvcPlaying
          (some { id := "t3", audioFile := some "b.mp3" })).acts
        = [Act.hPause sampleHandle1.hid, Act.hSetSrc sampleHandle1.hid "",
           Act.hLoad sampleHandle1.hid,
           Act.publish { sampleSvcPlaying.state with
             isPlaying := false,
             currentTime := JSNum.num 0,
             track := none,
             error := none },
           Act.hPause sampleHandle1.hid, Act.hSetSrc sampleHandle1.hid "",
           Act.hLoad sampleHandle1.hid,
           Act.hAlloc sampleSvcPlaying.nextId,
           Act.hWire sampleSvcPlaying.nextId] ++ tail ∧
      (∀ a ∈ tail, ∀ i, Act.hidOf a = some i → i = sampleSvcPlaying.nextId) ∧
      (∃ h2, (playTrack sampleSvcPlaying
          (some { id := "t3", audioFile := some "b.mp3" })).svc.audioElement
            = some h2 ∧
        h2.hid = sampleSvcPlaying.nextId ∧ sampleHandle1.hid ≠ h2.hid) :=
  ⟨by decide, by decide, by decide,
    C1_single_session sampleSvcPlaying sampleHandle1
      { id := "t3", audioFile := some "b.mp3" }
      (by decide) (by decide) (by decide)⟩

/-- `cleanupAudioElement` preserves the controller invariant, publishes
nothing, and leaves an element whose source is cleared. -/
theorem cleanup_inv (s : Svc) (hs : SvcInv s) :
    SvcInv (cleanupAudioElement s).1 ∧ pubsOf (cleanupAudioElement s).2 = [] := by
  obtain ⟨hs1, hs2⟩ := hs
  unfold cleanupAudioElement
  cases hel : s.audioElement with
  | none => exact ⟨⟨hs1, hs2⟩, rfl⟩
  | some h =>
      refine ⟨⟨hs1, ?_⟩, rfl⟩
      intro h2 heq hsrc
      simp only [Option.some.injEq] at heq
      rw [heq.symm] at hsrc
      simp at hsrc

/-- `initAudio` preserves the invariant, its published snapshots satisfy
`StateOk`, and it does not change `track` or `isPlaying`. -/
theorem initAudio_inv (s : Svc) (hs : SvcInv s) :
    SvcInv (initAudio s).1 ∧
    (∀ st ∈ pubsOf (initAudio s).2, StateOk st) ∧
    (initAudio s).1.state.track = s.state.track ∧
    (initAudio s).1.state.isPlaying = s.state.isPlaying ∧
    (∀ h2, (initAudio s).1.audioElement = some h2 → h2.src = "") := by
  obtain ⟨hs1, hs2⟩ := hs
  unfold initAudio cleanupAudioElement
  cases hel : s.audioElement <;>
    dsimp only <;>
      cases hst : s.storage <;>
        dsimp only <;>
          try split
  all_goals
    refine ⟨⟨fun hp => hs1 hp, fun h2 heq hsrc => ?_⟩, fun st hst2 => ?_,
      rfl, rfl, fun h2b heqb => ?_⟩
  all_goals
    first
      | (simp only [Option.some.injEq] at heq; subst heq; exact absurd rfl hsrc)
      | (simp only [Option.some.injEq] at heqb; subst heqb; rfl)
      | (simp [pubsOf] at hst2; try subst hst2; exact fun hp => hs1 hp)
      | simp [pubsOf] at hst2

/-- `validateTrack` succeeds only on the very track it was given. -/
theorem validateTrack_ok (t : Option Track) (vt : Track)
    (h : validateTrack t = Except.ok vt) : t = some vt := by
  unfold validateTrack at h
  cases t with
  | none => cases h
  | some tr =>
      dsimp only at h
      repeat' split at h
      all_goals
        first
          | (injection h with h2; rw [h2])
          | cases h

/-- `stop` establishes the invariant outright and publishes only stopped
snapshots. -/
theorem stop_inv (s : Svc) (hs : SvcInv s) :
    SvcInv (stop s).1 ∧ (∀ st ∈ pubsOf (stop s).2, StateOk st) := by
  obtain ⟨hs1, hs2⟩ := hs
  unfold stop
  cases hel : s.audioElement with
  | none => exact ⟨⟨hs1, hs2⟩, by simp [pubsOf]⟩
  | some h =>
      dsimp only
      refine ⟨⟨by simp [StateOk], fun h2 heq hsrc => ?_⟩, ?_⟩
      · simp only [Option.some.injEq] at heq
        subst heq
        exact absurd rfl hsrc
      · simp [pubsOf, StateOk]

/-- The synchronous part of `play` preserves the invariant and publishes
only `StateOk` snapshots. -/
theorem playBegin_inv (s : Svc) (hs : SvcInv s) :
    SvcInv (playBegin s).1 ∧ (∀ st ∈ pubsOf (playBegin s).2, StateOk st) := by
  obtain ⟨hs1, hs2⟩ := hs
  unfold playBegin
  cases hel : s.audioElement with
  | none =>
      dsimp only
      refine ⟨⟨by simp [StateOk], fun h2 heq hsrc => ?_⟩, ?_⟩
      · simp at heq
      · simp [pubsOf, StateOk]
  | some h =>
      dsimp only
      split
      next hcond =>
        refine ⟨⟨by simp [StateOk], fun h2 heq hsrc => ?_⟩, ?_⟩
        · simp only [Option.some.injEq] at heq
          subst heq
          exact absurd hcond hsrc
        · simp [pubsOf, StateOk]
      next hcond =>
        refine ⟨⟨fun hp => hs1 hp, fun h2 heq hsrc => ?_⟩, ?_⟩
        · simp only [Option.some.injEq] at heq
          subst heq
          exact hs2 h hel hsrc
        · intro st hst2
          simp [pubsOf] at hst2
          subst hst2
          exact fun hp => hs1 hp

/-- `pubsOf` distributes over action concatenation. -/
theorem pubsOf_append (l1 l2 : List Act) :
    pubsOf (l1 ++ l2) = pubsOf l1 ++ pubsOf l2 := by
  simp [pubsOf]

/-- The resolution continuation of `play` preserves the invariant when the
platform only resolves while the element still has a source. -/
theorem playResolved_inv (s : Svc) (hs : SvcInv s) (h : Handle)
    (hel : s.audioElement = some h) (hsrc : ¬ h.src = "") :
    SvcInv (playResolved s).1 ∧
    (∀ st ∈ pubsOf (playResolved s).2, StateOk st) := by
  obtain ⟨hs1, hs2⟩ := hs
  have htr : s.state.track.isSome = true := hs2 h hel hsrc
  unfold playResolved
  split
  · exact ⟨⟨hs1, hs2⟩, by simp [pubsOf]⟩
  · refine ⟨⟨fun hp => htr, fun h2 heq hsrc2 => hs2 h2 heq hsrc2⟩, ?_⟩
    intro st hst2
    simp [pubsOf] at hst2
    subst hst2
    exact fun hp => htr

/-- The rejection continuation of `play` preserves the invariant. -/
theorem playRejected_inv (s : Svc) (msg : String) (hs : SvcInv s) :
    SvcInv (playRejected s msg).1 ∧
    (∀ st ∈ pubsOf (playRejected s msg).2, StateOk st) := by
  obtain ⟨hs1, hs2⟩ := hs
  unfold playRejected
  split
  · exact ⟨⟨hs1, hs2⟩, by simp [pubsOf]⟩
  · refine ⟨⟨by simp [StateOk], fun h2 heq hsrc => hs2 h2 heq hsrc⟩, ?_⟩
    simp [pubsOf, StateOk]

/-- `pause` preserves the invariant. -/
theorem pause_inv (s : Svc) (hs : SvcInv s) :
    SvcInv (pause s).svc ∧ (∀ st ∈ pubsOf (pause s).acts, StateOk st) := by
  obtain ⟨hs1, hs2⟩ := hs
  unfold pause
  cases hel : s.audioElement with
  | none => exact ⟨⟨hs1, hs2⟩, by simp [pubsOf]⟩
  | some h =>
      dsimp only
      refine ⟨⟨by simp [StateOk], fun h2 heq hsrc => ?_⟩, ?_⟩
      · simp only [Option.some.injEq] at heq
        subst heq
        exact hs2 h hel hsrc
      · simp [pubsOf, StateOk]

/-- `seek` preserves the invariant. -/
theorem seek_inv (s : Svc) (t : JSNum) (hs : SvcInv s) :
    SvcInv (seek s t).svc ∧ (∀ st ∈ pubsOf (seek s t).acts, StateOk st) := by
  obtain ⟨hs1, hs2⟩ := hs
  unfold seek
  cases hel : s.audioElement with
  | none => exact ⟨⟨hs1, hs2⟩, by simp [pubsOf]⟩
  | some h =>
      dsimp only
      split
      all_goals
        refine ⟨⟨fun hp => hs1 hp, fun h2 heq hsrc => ?_⟩, fun st hst2 => ?_⟩
      all_goals
        first
          | (simp only [Option.some.injEq] at heq
             subst heq
             exact hs2 h hel hsrc)
          | (simp [pubsOf] at hst2
             subst hst2
             exact fun hp => hs1 hp)

/-- `setVolume` preserves the invariant. -/
theorem setVolume_inv (s : Svc) (v : JSNum) (hs : SvcInv s) :
    SvcInv (setVolume s v).svc ∧
    (∀ st ∈ pubsOf (setVolume s v).acts, StateOk st) := by
  obtain ⟨hs1, hs2⟩ := hs
  unfold setVolume
  cases hel : s.audioElement with
  | none => exact ⟨⟨hs1, hs2⟩, by simp [pubsOf]⟩
  | some h =>
      dsimp only
      split
      all_goals
        refine ⟨⟨fun hp => hs1 hp, fun h2 heq hsrc => ?_⟩, fun st hst2 => ?_⟩
      all_goals
        first
          | (simp only [Option.some.injEq] at heq
             subst heq
             exact hs2 h hel hsrc)
          | (simp [pubsOf] at hst2
             subst hst2
             exact fun hp => hs1 hp)

/-- `togglePlayPause` preserves the invariant. -/
theorem toggle_inv (s : Svc) (hs : SvcInv s) :
    SvcInv (togglePlayPause s).svc ∧
    (∀ st ∈ pubsOf (togglePlayPause s).acts, StateOk st) := by
  obtain ⟨hs1, hs2⟩ := hs
  unfold togglePlayPause
  cases hel : s.audioElement with
  | none => exact ⟨⟨hs1, hs2⟩, by simp [pubsOf]⟩
  | some h =>
      dsimp only
      cases htr : s.state.track with
      | none => exact ⟨⟨hs1, hs2⟩, by simp [pubsOf]⟩
      | some tr =>
          dsimp only
          split
          · refine ⟨⟨by simp [StateOk], fun h2 heq hsrc => rfl⟩, ?_⟩
            simp [pubsOf, StateOk]
          · split
            · exact pause_inv s ⟨hs1, hs2⟩
            · exact playBegin_inv s ⟨hs1, hs2⟩

/-- `reset` establishes the invariant and publishes only `StateOk`
snapshots. -/
theorem reset_inv (s : Svc) (hs : SvcInv s) :
    SvcInv (reset s).svc ∧ (∀ st ∈ pubsOf (reset s).acts, StateOk st) := by
  have hs0 : SvcInv { s with isPlaybackInProgress := false } :=
    ⟨hs.1, fun h heq hsrc => hs.2 h heq hsrc⟩
  have hc := cleanup_inv { s with isPlaybackInProgress := false } hs0
  have hi := initAudio_inv (cleanupAudioElement
    { s with isPlaybackInProgress := false }).1 hc.1
  unfold reset
  refine ⟨⟨by simp [StateOk], fun h2 heq hsrc => ?_⟩, fun st hst2 => ?_⟩
  · exact absurd (hi.2.2.2.2 h2 heq) hsrc
  · have hst3 : st ∈ pubsOf
        ((cleanupAudioElement { s with isPlaybackInProgress := false }).2 ++
          (initAudio (cleanupAudioElement
            { s with isPlaybackInProgress := false }).1).2 ++
          [Act.publish { (initAudio (cleanupAudioElement
              { s with isPlaybackInProgress := false }).1).1.state with
            track := none,
            isPlaying := false,
            currentTime := JSNum.num 0,
            duration := JSNum.num 0,
            error := none }]) := hst2
    rw [pubsOf_append, pubsOf_append] at hst3
    rcases List.mem_append.mp hst3 with hm | hm
    · rcases List.mem_append.mp hm with hm2 | hm2
      · rw [hc.2] at hm2
        cases hm2
      · exact hi.2.1 st hm2
    · simp [pubsOf] at hm
      subst hm
      exact fun hp => Bool.noConfusion hp

/-- `handleTimeUpdate` preserves the invariant. -/
theorem handleTimeUpdate_inv (s : Svc) (t : JSNum) (hs : SvcInv s) :
    SvcInv (handleTimeUpdate s t).1 ∧
    (∀ st ∈ pubsOf (handleTimeUpdate s t).2, StateOk st) := by
  obtain ⟨hs1, hs2⟩ := hs
  unfold handleTimeUpdate
  cases hel : s.audioElement with
  | none => exact ⟨⟨hs1, hs2⟩, by simp [pubsOf]⟩
  | some h =>
      dsimp only
      refine ⟨⟨fun hp => hs1 hp, fun h2 heq hsrc => ?_⟩, fun st hst2 => ?_⟩
      · simp only [Option.some.injEq] at heq
        subst heq
        exact hs2 h hel hsrc
      · simp [pubsOf] at hst2
        subst hst2
        exact fun hp => hs1 hp

/-- `handleEnded` preserves the invariant. -/
theorem handleEnded_inv (s : Svc) (hs : SvcInv s) :
    SvcInv (handleEnded s).1 ∧
    (∀ st ∈ pubsOf (handleEnded s).2, StateOk st) := by
  obtain ⟨hs1, hs2⟩ := hs
  unfold handleEnded
  refine ⟨⟨by simp [StateOk], fun h2 heq hsrc => hs2 h2 heq hsrc⟩, ?_⟩
  simp [pubsOf, StateOk]

/-- `handleLoaded` preserves the invariant. -/
theorem handleLoaded_inv (s : Svc) (d : JSNum) (hs : SvcInv s) :
    SvcInv (handleLoaded s d).1 ∧
    (∀ st ∈ pubsOf (handleLoaded s d).2, StateOk st) := by
  obtain ⟨hs1, hs2⟩ := hs
  unfold handleLoaded
  cases hel : s.audioElement with
  | none => exact ⟨⟨hs1, hs2⟩, by simp [pubsOf]⟩
  | some h =>
      dsimp only
      refine ⟨⟨fun hp => hs1 hp, fun h2 heq hsrc => ?_⟩, fun st hst2 => ?_⟩
      · simp only [Option.some.injEq] at heq
        subst heq
        exact hs2 h hel hsrc
      · simp [pubsOf] at hst2
        subst hst2
        exact fun hp => hs1 hp

/-- `handleError` preserves the invariant. -/
theorem handleError_inv (s : Svc) (m : Option MediaErrKind) (hs : SvcInv s) :
    SvcInv (handleError s m).1 ∧
    (∀ st ∈ pubsOf (handleError s m).2, StateOk st) := by
  obtain ⟨hs1, hs2⟩ := hs
  unfold handleError
  cases hel : s.audioElement with
  | none => exact ⟨⟨hs1, hs2⟩, by simp [pubsOf]⟩
  | some h =>
      dsimp only
      split
      · exact ⟨⟨hs1, hs2⟩, by simp [pubsOf]⟩
      · refine ⟨⟨by simp [StateOk], fun h2 heq hsrc => ?_⟩, ?_⟩
        · simp only [Option.some.injEq] at heq
          subst heq
          exact hs2 h hel hsrc
        · simp [pubsOf, StateOk]

/-- Clearing the one-shot canplaythrough hook preserves the invariant. -/
theorem svcInv_cptClear (s : Svc) (hh : Handle) (hs : SvcInv s)
    (hel : s.audioElement = some hh) :
    SvcInv { s with audioElement := some { hh with cptArmed := false } } := by
  obtain ⟨hs1, hs2⟩ := hs
  refine ⟨hs1, fun h2 heq hsrc => ?_⟩
  have heq2 : some { hh with cptArmed := false } = some h2 := heq
  simp only [Option.some.injEq] at heq2
  subst heq2
  exact hs2 hh hel hsrc

/-- A `canplaythrough` event preserves the invariant. -/
theorem cpt_inv (s : Svc) (hs : SvcInv s) :
    SvcInv (canPlayThroughEvent s).1 ∧
    (∀ st ∈ pubsOf (canPlayThroughEvent s).2, StateOk st) := by
  have h1 : SvcInv (handleCanPlayThrough s).1 ∧
      (∀ st ∈ pubsOf (handleCanPlayThrough s).2, StateOk st) := by
    unfold handleCanPlayThrough
    split
    · exact playBegin_inv s hs
    · exact ⟨hs, by simp [pubsOf]⟩
  unfold canPlayThroughEvent
  dsimp only
  cases hel2 : (handleCanPlayThrough s).1.audioElement with
  | none => exact h1
  | some hh =>
      dsimp only
      split
      · have h2 := playBegin_inv (handleCanPlayThrough s).1 h1.1
        cases hel3 : (playBegin (handleCanPlayThrough s).1).1.audioElement with
        | none =>
            dsimp only
            refine ⟨h2.1, fun st hst2 => ?_⟩
            have hst3 : st ∈ pubsOf ((handleCanPlayThrough s).2 ++
                (playBegin (handleCanPlayThrough s).1).2) := hst2
            rw [pubsOf_append] at hst3
            rcases List.mem_append.mp hst3 with hm | hm
            · exact h1.2 st hm
            · exact h2.2 st hm
        | some hh2 =>
            dsimp only
            refine ⟨svcInv_cptClear _ hh2 h2.1 hel3, fun st hst2 => ?_⟩
            have hst3 : st ∈ pubsOf ((handleCanPlayThrough s).2 ++
                (playBegin (handleCanPlayThrough s).1).2) := hst2
            rw [pubsOf_append] at hst3
            rcases List.mem_append.mp hst3 with hm | hm
            · exact h1.2 st hm
            · exact h2.2 st hm
      · exact h1

/-- `playTrack` establishes the invariant and publishes only `StateOk`
snapshots. -/
theorem playTrack_inv (s : Svc) (t : Option Track) (hs : SvcInv s) :
    SvcInv (playTrack s t).svc ∧
    (∀ st ∈ pubsOf (playTrack s t).acts, StateOk st) := by
  obtain ⟨hs1, hs2⟩ := hs
  unfold playTrack
  cases hv : validateTrack t with
  | error ve =>
      dsimp only
      refine ⟨⟨by simp [StateOk], fun h2 heq hsrc => hs2 h2 heq hsrc⟩, ?_⟩
      simp [pubsOf, StateOk]
  | ok vt =>
      have hteq := validateTrack_ok t vt hv
      subst hteq
      have hs0 : SvcInv { s with isPlaybackInProgress := true } :=
        ⟨hs1, fun h heq hsrc => hs2 h heq hsrc⟩
      have h1 := stop_inv { s with isPlaybackInProgress := true } hs0
      have h2 := initAudio_inv
        (stop { s with isPlaybackInProgress := true }).1 h1.1
      dsimp only
      cases hurl : getFullAudioUrl (vt.audioFile.getD "") with
      | ok url =>
          dsimp only
          cases helx : (initAudio
              (stop { s with isPlaybackInProgress := true }).1).1.audioElement
            with
          | none =>
              dsimp only
              refine ⟨⟨by simp [StateOk], fun h2x heq hsrc => rfl⟩,
                fun st hst2 => ?_⟩
              simp only [pubsOf_append, List.mem_append] at hst2
              rcases hst2 with (hm | hm) | hm
              · exact h1.2 st hm
              · exact h2.2.1 st hm
              · simp [pubsOf] at hm
                subst hm
                exact fun hp => Bool.noConfusion hp
          | some h =>
              dsimp only
              refine ⟨⟨by simp [StateOk], fun h2x heq hsrc => rfl⟩,
                fun st hst2 => ?_⟩
              simp only [pubsOf_append, List.mem_append] at hst2
              rcases hst2 with ((hm | hm) | hm) | hm
              · exact h1.2 st hm
              · exact h2.2.1 st hm
              · simp [pubsOf] at hm
                subst hm
                exact fun hp => Bool.noConfusion hp
              · simp [pubsOf] at hm
                subst hm
                exact fun hp => Bool.noConfusion hp
      | error e0 =>
          dsimp only
          refine ⟨⟨by simp [StateOk], fun h2x heq hsrc => rfl⟩,
            fun st hst2 => ?_⟩
          simp only [pubsOf_append, List.mem_append] at hst2
          rcases hst2 with ((hm | hm) | hm) | hm
          · exact h1.2 st hm
          · exact h2.2.1 st hm
          · simp [pubsOf] at hm
            subst hm
            exact fun hp => Bool.noConfusion hp
          · simp [pubsOf] at hm
            subst hm
            exact fun hp => Bool.noConfusion hp

/-- One event preserves the controller invariant and publishes only
`StateOk` snapshots, provided the platform respects `okEv` (pending play
promises resolve only while the element still has a source). -/
theorem step_preserves (s : Svc) (e : Ev) (hs : SvcInv s)
    (hok : okEv s e = true) :
    SvcInv (step s e) ∧ ∀ st ∈ pubsOf (stepT s e).2, StateOk st := by
  cases e with
  | opPlayTrack t => exact playTrack_inv s t hs
  | opPlay => exact playBegin_inv s hs
  | evPlayResolved =>
      unfold okEv at hok
      cases hel : s.audioElement with
      | none => rw [hel] at hok; cases hok
      | some h =>
          rw [hel] at hok
          simp only [Bool.not_eq_true'] at hok
          exact playResolved_inv s hs h hel (of_decide_eq_false hok)
  | evPlayRejected m => exact playRejected_inv s m hs
  | opPause => exact pause_inv s hs
  | opStop => exact stop_inv s hs
  | opSeek t => exact seek_inv s t hs
  | opSetVolume v => exact setVolume_inv s v hs
  | opToggle => exact toggle_inv s hs
  | opReset => exact reset_inv s hs
  | evTimeUpdate t => exact handleTimeUpdate_inv s t hs
  | evEnded => exact handleEnded_inv s hs
  | evLoadedMetadata d => exact handleLoaded_inv s d hs
  | evError m => exact handleError_inv s m hs
  | evCanPlayThrough => exact cpt_inv s hs
  | evReadyState n =>
      obtain ⟨hs1, hs2⟩ := hs
      unfold step stepT
      cases hel : s.audioElement with
      | none => exact ⟨⟨hs1, hs2⟩, by simp [pubsOf]⟩
      | some h =>
          dsimp only
          refine ⟨⟨fun hp => hs1 hp, fun h2 heq hsrc => ?_⟩, by simp [pubsOf]⟩
          simp only [Option.some.injEq] at heq
          subst heq
          exact hs2 h hel hsrc
  | evWatchdog =>
      obtain ⟨hs1, hs2⟩ := hs
      exact ⟨⟨hs1, fun h heq hsrc => hs2 h heq hsrc⟩,
        by simp [stepT, pubsOf]⟩

/-- Along any `okEv`-respecting trace from an invariant-satisfying state,
every published snapshot satisfies `StateOk`. -/
theorem runPubs_ok (es : List Ev) :
    ∀ s, SvcInv s → validFrom s es = true →
      ∀ st ∈ runPubs s es, StateOk st := by
  induction es with
  | nil => intro s hs hval st hst; simp [runPubs] at hst
  | cons e es ih =>
      intro s hs hval st hst
      unfold validFrom at hval
      rw [Bool.and_eq_true] at hval
      have hpres := step_preserves s e hs hval.1
      unfold runPubs at hst
      rcases List.mem_append.mp hst with hm | hm
      · exact hpres.2 st hm
      · exact ih (step s e) hpres.1 hval.2 st hm

/-- The freshly constructed service satisfies the invariant. -/
theorem svcInv_initial : SvcInv initialSvc := by
  constructor
  · intro hp
    exact absurd hp (by decide)
  · intro h hel hsrc
    have h0 : initialSvc.audioElement = some sampleHandle0 := by decide
    rw [h0] at hel
    simp only [Option.some.injEq] at hel
    rw [hel.symm] at hsrc
    exact absurd (by decide) hsrc

/-- C2 counterexample: the claim quantifies over all sequences of public
operations and handle events, but the resolution continuation of `play()`
publishes `isPlaying := true` without re-checking the track.  Loading a
track, starting `play()`, stopping, and then delivering the (still
pending) play resolution publishes a snapshot with `isPlaying = true` and
`track = null`. -/
theorem C2_counterexample :
    ∃ bad ∈ runPubs initialSvc
      [Ev.opPlayTrack (some sampleTrack), Ev.opPlay, Ev.opStop,
       Ev.evPlayResolved],
      bad.isPlaying = true ∧ bad.track = none := by
  refine ⟨{ track := none,
            isPlaying := true,
            currentTime := JSNum.num 0,
            duration := JSNum.num 0,
            volume := JSNum.num 1,
            error := none },
    ?_, rfl, rfl⟩
  decide

/-- C2 (amended): for every sequence of public operations and handle
events in which the platform never resolves a pending `play()` promise
after the element's source has been cleared (a real platform rejects the
pending promise once `pause()`/`src = ''` has run, as `stop`, `reset` and
`playTrack` do), every published snapshot satisfies the invariant:
`isPlaying = true` implies a track is present. -/
theorem C2_invariant (es : List Ev)
    (hval : validFrom initialSvc es = true) :
    ∀ st ∈ runPubs initialSvc es, st.isPlaying = true → st.track.isSome = true :=
  fun st hst => runPubs_ok es initialSvc svcInv_initial hval st hst

/-- Witness for the amended C2 on a load-play-resolve trace. -/
theorem C2_invariant_witness :
    validFrom initialSvc
      [Ev.opPlayTrack (some sampleTrack), Ev.opPlay, Ev.evPlayResolved]
      = true ∧
    ∀ st ∈ runPubs initialSvc
      [Ev.opPlayTrack (some sampleTrack), Ev.opPlay, Ev.evPlayResolved],
      st.isPlaying = true → st.track.isSome = true :=
  ⟨by decide,
    C2_invariant
      [Ev.opPlayTrack (some sampleTrack), Ev.opPlay, Ev.evPlayResolved]
      (by decide)⟩
